import Mathlib

/-!
Verification of the outbreakx-attic SEIR simulation toolkit.

The development shallowly embeds the algorithmic core of the repository:

* `SIER Model/SIER_Model.py` — parameter validation in
  `DiseaseOutbreakSimulation.__init__`, the SEIR derivative `seir_model`,
  the sampling grid of `run_simulation`, the patient-record expansion
  `generate_patient_data`, and the rejection sampler
  `generate_random_location`;
* `weather model/model.py` — `get_season`, the seasonal parameter lookup,
  and the hourly synthesis loop of `generate_hourly_data`.

Exact rational / real arithmetic stands in for Python floats; the
pseudo-random draws of the source are passed in explicitly (each draw is a
parameter constrained to the range of the `random.uniform` /
`random.randint` call that produced it).
-/

namespace Outbreak

/-- Python `int()` applied to a rational: truncation toward zero. -/
def pyInt (q : ℚ) : ℤ := if 0 ≤ q then ⌊q⌋ else ⌈q⌉

/-- Python `round()` applied to a rational: round half to even
(banker's rounding), as used by the spec's word "round". -/
def pyRound (q : ℚ) : ℤ :=
  if q - ⌊q⌋ < 1/2 then ⌊q⌋
  else if 1/2 < q - ⌊q⌋ then ⌊q⌋ + 1
  else if ⌊q⌋ % 2 = 0 then ⌊q⌋ else ⌊q⌋ + 1

/-- `DiseaseOutbreakSimulation.__init__` validation (SIER_Model.py lines
20–26): the two `raise ValueError` guards run before any attribute of the
simulation is assigned; on success the derived `S0 = N - I0 - R0 - E0`
is built. -/
def initValidate (N I0 R0 E0 : ℚ) : Except String ℚ :=
  if N ≤ 0 ∨ I0 < 0 ∨ R0 < 0 ∨ E0 < 0 then
    Except.error "Population and initial values must be non-negative"
  else if I0 + R0 + E0 > N then
    Except.error "Sum of I0, R0, and E0 cannot exceed total population N"
  else
    Except.ok (N - I0 - R0 - E0)

/-- The SEIR derivative `seir_model(self, y, t, N, beta, sigma, gamma)`
(SIER_Model.py lines 43–49); `t` is accepted and ignored exactly as in
the source. -/
def seir_model (y : ℚ × ℚ × ℚ × ℚ) (_t : ℚ) (N beta sigma gamma : ℚ) :
    ℚ × ℚ × ℚ × ℚ :=
  let S := y.1
  let I := y.2.2.1
  let E := y.2.1
  let dSdt := -beta * S * I / N
  let dEdt := beta * S * I / N - sigma * E
  let dIdt := sigma * E - gamma * I
  let dRdt := gamma * I
  (dSdt, dEdt, dIdt, dRdt)

/-- `numpy.linspace(a, b, num)`: `num` evenly spaced samples from `a` to
`b` inclusive (step `(b-a)/(num-1)`; for `num = 1` the single sample is
`a`, which the formula also yields since division by zero is zero in ℚ). -/
def linspace (a b : ℚ) (num : ℕ) : List ℚ :=
  (List.range num).map (fun (i : ℕ) => a + (b - a) * (i : ℚ) / ((num : ℚ) - 1))

/-- Modelled from the spec: the ODE Integrator (`scipy.integrate.odeint`)
is an external collaborator, not part of this repository's sources. Per
the spec it "consumes the SEIR derivative function and returns compartment
trajectories", one (S, E, I, R) state per requested sample time. The
numerical values are abstracted as an arbitrary approximate-solution map
`sol`; only the sampling shape is modelled. -/
def odeint (sol : ℚ → ℚ × ℚ × ℚ × ℚ) (ts : List ℚ) : List (ℚ × ℚ × ℚ × ℚ) :=
  ts.map sol

/-- The trajectory-building part of `run_simulation` (SIER_Model.py lines
51–66): `t = np.linspace(0, duration_days, duration_days + 1)`, the solver
is invoked on that grid, and the `seir_data` frame pairs each `t` sample
with its compartment state. -/
def run_simulation (sol : ℚ → ℚ × ℚ × ℚ × ℚ) (duration_days : ℕ) :
    List (ℚ × (ℚ × ℚ × ℚ × ℚ)) :=
  let t := linspace 0 duration_days (duration_days + 1)
  t.zip (odeint sol t)

/-! ### Patient record expansion (`generate_patient_data`, lines 68–94)

The per-record pseudo-random draws of the source
(`random.randint(0, 23)`, `random.randint(0, 59)`, `random.randint(1, 90)`,
`random.choices(['Mild','Moderate','Severe'], ...)` and the Geo Sampler's
output) are supplied as an explicit family `draws`, indexed by the value of
the patient counter at the moment of the draw. -/

/-- The stochastic inputs consumed for one appended patient row. -/
structure PatientDraws where
  hour : ℕ
  minute : ℕ
  age : ℕ
  severity : String
  lat : ℚ
  lon : ℚ
deriving DecidableEq, Inhabited

/-- The f-string `f"P\x7bpatient_counter:05d\x7d"`: the decimal digits of
the counter left-padded with zeros to width 5, prefixed by `P`. -/
def formatId (n : ℕ) : String :=
  "P" ++ String.mk (List.replicate (5 - (toString n).length) '0') ++ toString n

/-- One row of the patient `DataFrame` (the dict appended at
SIER_Model.py lines 80–88); the `timestamp` is kept as its `(day, hour,
minute)` offsets from `start_date`. `patient_counter` is the numeric value
of the counter the row's `patient_id` was formatted from. -/
structure PatientRecord where
  patient_counter : ℕ
  patient_id : String
  disease_name : String
  day : ℕ
  hour : ℕ
  minute : ℕ
  age : ℕ
  severity : String
  latitude : ℚ
  longitude : ℚ
deriving DecidableEq, Inhabited

/-- The row appended for one patient. -/
def mkRecord (disease : String) (day : ℕ) (counter : ℕ) (dr : PatientDraws) :
    PatientRecord :=
  { patient_counter := counter
    patient_id := formatId counter
    disease_name := disease
    day := day
    hour := dr.hour
    minute := dr.minute
    age := dr.age
    severity := dr.severity
    latitude := dr.lat
    longitude := dr.lon }

/-- `new_cases = max(0, int(infected) - (int(I[day-1]) if day > 0 else
self.I0))` (SIER_Model.py line 72): `int()` truncates toward zero, and the
day-0 predecessor is the raw configured `I0`. -/
def new_cases (I : List ℚ) (I0 : ℤ) (d : ℕ) : ℤ :=
  max 0 (pyInt (I.getD d 0) - (if d > 0 then pyInt (I.getD (d - 1) 0) else I0))

/-- The claimed per-day count, following the spec's words: `max(0,
round(I[d]) − prev)` with `prev = round(I[d−1])` for `d > 0` and the
configured `I0` for `d = 0` (refinement target, to be compared with
`new_cases`). -/
def claimedNewCases (I : List ℚ) (I0 : ℤ) (d : ℕ) : ℤ :=
  max 0 (pyRound (I.getD d 0) - (if d > 0 then pyRound (I.getD (d - 1) 0) else I0))

/-- The inner `for _ in range(new_cases)` loop of one day (guarded by
`if new_cases > 0`, which `Int.toNat` subsumes): `n` rows for day `day`,
consuming counter values `counter, counter + 1, ...`. -/
def dayBlock (disease : String) (day : ℕ) (counter : ℕ) (n : ℕ)
    (draws : ℕ → PatientDraws) : List PatientRecord :=
  (List.range n).map (fun i => mkRecord disease day (counter + i) (draws (counter + i)))

/-- The outer `for day, infected in enumerate(I)` loop, from day `day` with
`rem` days remaining and the patient counter at `counter`. -/
def genAux (disease : String) (I : List ℚ) (I0 : ℤ) (draws : ℕ → PatientDraws) :
    ℕ → ℕ → ℕ → List PatientRecord
  | _, _, 0 => []
  | day, counter, rem + 1 =>
    dayBlock disease day counter (new_cases I I0 day).toNat draws ++
      genAux disease I I0 draws (day + 1) (counter + (new_cases I I0 day).toNat) rem

/-- `generate_patient_data` (SIER_Model.py lines 68–94): the counter is
initialized to 1 and threaded across all days. -/
def generate_patient_data (disease : String) (I : List ℚ) (I0 : ℤ)
    (draws : ℕ → PatientDraws) : List PatientRecord :=
  genAux disease I I0 draws 0 1 I.length

/-- The number of records generated for day `d`. -/
def countForDay (recs : List PatientRecord) (d : ℕ) : ℕ :=
  (recs.filter (fun r => r.day == d)).length

/-- Every record the day loop emits carries the id formatted from its
counter, the configured disease name, and a day index within the days the
loop visited. -/
theorem genAux_mem (disease : String) (I : List ℚ) (I0 : ℤ)
    (draws : ℕ → PatientDraws) :
    ∀ rem day counter r, r ∈ genAux disease I I0 draws day counter rem →
      r.patient_id = formatId r.patient_counter ∧
      r.disease_name = disease ∧ day ≤ r.day ∧ r.day < day + rem := by
  intro rem
  induction rem with
  | zero =>
      intro day counter r hr
      simp [genAux] at hr
  | succ m ih =>
      intro day counter r hr
      rw [genAux, List.mem_append] at hr
      rcases hr with hr | hr
      · rw [dayBlock, List.mem_map] at hr
        obtain ⟨i, _, rfl⟩ := hr
        have hday : (mkRecord disease day (counter + i) (draws (counter + i))).day = day := rfl
        exact ⟨rfl, rfl, by omega, by omega⟩
      · obtain ⟨h1, h2, h3, h4⟩ := ih (day + 1) (counter + (new_cases I I0 day).toNat) r hr
        exact ⟨h1, h2, by omega, by omega⟩

/-- The counters consumed by the day loop are exactly the consecutive
block starting at the incoming counter value. -/
theorem genAux_counters (disease : String) (I : List ℚ) (I0 : ℤ)
    (draws : ℕ → PatientDraws) :
    ∀ rem day counter,
      (genAux disease I I0 draws day counter rem).map (fun r => r.patient_counter) =
        List.range' counter (genAux disease I I0 draws day counter rem).length := by
  intro rem
  induction rem with
  | zero =>
      intro day counter
      simp [genAux]
  | succ m ih =>
      intro day counter
      rw [genAux, List.map_append, List.length_append, ih]
      have hblock : (dayBlock disease day counter (new_cases I I0 day).toNat draws).map
          (fun r => r.patient_counter) =
          List.range' counter (new_cases I I0 day).toNat := by
        rw [dayBlock, List.map_map, List.range'_eq_map_range]
        rfl
      rw [hblock, dayBlock, List.length_map, List.length_range,
        List.range'_append_1, Nat.add_comm]

/-- The per-day record count: within the generated range the day loop
emits `(new_cases I I0 d).toNat` records for day `d`. -/
theorem genAux_countForDay (disease : String) (I : List ℚ) (I0 : ℤ)
    (draws : ℕ → PatientDraws) :
    ∀ rem day counter d, day ≤ d → d < day + rem →
      countForDay (genAux disease I I0 draws day counter rem) d =
        (new_cases I I0 d).toNat := by
  intro rem
  induction rem with
  | zero =>
      intro day counter d h1 h2
      omega
  | succ m ih =>
      intro day counter d h1 h2
      rw [genAux, countForDay, List.filter_append, List.length_append]
      rcases Nat.eq_or_lt_of_le h1 with heq | hlt
      · have hfull : (dayBlock disease day counter (new_cases I I0 day).toNat draws).filter
            (fun r => r.day == d) =
            dayBlock disease day counter (new_cases I I0 day).toNat draws := by
          rw [List.filter_eq_self]
          intro r hr
          rw [dayBlock, List.mem_map] at hr
          obtain ⟨i, _, rfl⟩ := hr
          simp [mkRecord, heq]
        have hnil : (genAux disease I I0 draws (day + 1)
            (counter + (new_cases I I0 day).toNat) m).filter (fun r => r.day == d) = [] := by
          rw [List.filter_eq_nil_iff]
          intro r hr
          have := (genAux_mem disease I I0 draws m (day + 1) _ r hr).2.2.1
          simp only [beq_iff_eq]
          omega
        rw [hfull, hnil, dayBlock, List.length_map, List.length_range, heq]
        simp
      · have hnil : (dayBlock disease day counter (new_cases I I0 day).toNat draws).filter
            (fun r => r.day == d) = [] := by
          rw [List.filter_eq_nil_iff]
          intro r hr
          rw [dayBlock, List.mem_map] at hr
          obtain ⟨i, _, rfl⟩ := hr
          simp only [mkRecord, beq_iff_eq]
          omega
        rw [hnil]
        have := ih (day + 1) (counter + (new_cases I I0 day).toNat) d (by omega) (by omega)
        rw [countForDay] at this
        rw [this]
        simp

/-- C1 counterexample: with infected trajectory `I = [0.6]` and configured
`I0 = 0`, the code emits 0 records for day 0 (`int(0.6) = 0`) while the
claim's round-based count `max(0, round(0.6) - 0)` is 1. -/
theorem patient_count_round_counterexample :
    countForDay (generate_patient_data "Dengue" [(3 : ℚ)/5] 0 (fun _ => default)) 0 = 0 ∧
    claimedNewCases [(3 : ℚ)/5] 0 0 = 1 := by
  have hInt : pyInt ((3 : ℚ)/5) = 0 := by
    rw [pyInt]
    norm_num
  have hRound : pyRound ((3 : ℚ)/5) = 1 := by
    rw [pyRound]
    norm_num
  constructor
  · have hnc : new_cases [(3 : ℚ)/5] 0 0 = 0 := by
      rw [new_cases]
      simp [hInt]
    simp [generate_patient_data, genAux, countForDay, dayBlock, hnc]
  · rw [claimedNewCases]
    simp [hRound]

/-- C1 (amended): the number of records `generate_patient_data` produces
for day `d` equals `max(0, int(I[d]) − prev)`, where `int` is Python
truncation toward zero, `prev = int(I[d−1])` for `d > 0` and the
configured `I0` for `d = 0`; in particular the count is clamped to zero
when `I` decreases. -/
theorem patient_count_per_day (disease : String) (I : List ℚ) (I0 : ℤ)
    (draws : ℕ → PatientDraws) (d : ℕ) (hd : d < I.length) :
    countForDay (generate_patient_data disease I I0 draws) d =
      (new_cases I I0 d).toNat :=
  genAux_countForDay disease I I0 draws I.length 0 1 d (Nat.zero_le d) (by omega)

/-- C1 witness: the amended count theorem evaluated on the one-day
trajectory `I = [0.6]`, `I0 = 0`. -/
theorem patient_count_per_day_witness :
    0 < ([(3 : ℚ)/5] : List ℚ).length ∧
    countForDay (generate_patient_data "Dengue" [(3 : ℚ)/5] 0 (fun _ => default)) 0 =
      (new_cases [(3 : ℚ)/5] 0 0).toNat :=
  ⟨by norm_num,
    patient_count_per_day "Dengue" [(3 : ℚ)/5] 0 (fun _ => default) 0 (by norm_num)⟩

/-- C8: across a whole run the patient counters are exactly the
consecutive block `1, 2, ..., total` in creation order (strictly
increasing, all distinct, never reused, never reset between days), and
every stored `patient_id` is the zero-padded rendering of its counter. -/
theorem patient_ids_sequential (disease : String) (I : List ℚ) (I0 : ℤ)
    (draws : ℕ → PatientDraws) :
    (generate_patient_data disease I I0 draws).map (fun r => r.patient_counter) =
      List.range' 1 (generate_patient_data disease I I0 draws).length ∧
    (generate_patient_data disease I I0 draws).map (fun r => r.patient_id) =
      (List.range' 1 (generate_patient_data disease I I0 draws).length).map formatId ∧
    ((generate_patient_data disease I I0 draws).map
      (fun r => r.patient_counter)).Pairwise (· < ·) := by
  have hc : (generate_patient_data disease I I0 draws).map (fun r => r.patient_counter) =
      List.range' 1 (generate_patient_data disease I I0 draws).length :=
    genAux_counters disease I I0 draws I.length 0 1
  refine ⟨hc, ?_, ?_⟩
  · have hcomp : (generate_patient_data disease I I0 draws).map (fun r => r.patient_id) =
        ((generate_patient_data disease I I0 draws).map
          (fun r => r.patient_counter)).map formatId := by
      rw [List.map_map]
      apply List.map_congr_left
      intro r hr
      exact (genAux_mem disease I I0 draws I.length 0 1 r hr).1
    rw [hcomp, hc]
  · rw [hc]
    exact List.pairwise_lt_range' 1 _

/-! ### Geo Sampler (`generate_random_location`, lines 96–122)

The two `random.random()` draws of each loop iteration are supplied as a
list of pairs; the loop walks the list and returns the first candidate
that passes the bounds check (`none` models exhausting the supplied
randomness without an accepted point — the source would keep looping). -/

/-- The `COLOMBO_BOUNDS` membership test of the sampler's `while` loop. -/
def inColomboBounds (p : ℝ × ℝ) : Prop :=
  6.85 ≤ p.1 ∧ p.1 ≤ 6.98 ∧ 79.82 ≤ p.2 ∧ p.2 ≤ 79.90

/-- One candidate of the rejection loop: `r = radius_km * sqrt(u)`,
`theta = v * 2π`, polar offset converted to degrees with the flat-Earth
factors `1° lat = 111.32 km`, `1° lon = 111.32·cos(radians(center_lat))
km`. -/
noncomputable def candidatePoint (center_lat center_lon radius_km u v : ℝ) : ℝ × ℝ :=
  (center_lat + radius_km * Real.sqrt u * Real.sin (v * 2 * Real.pi) / 111.32,
   center_lon + radius_km * Real.sqrt u * Real.cos (v * 2 * Real.pi) /
     (111.32 * Real.cos (center_lat * Real.pi / 180)))

open Classical in
/-- The rejection-sampling loop of `generate_random_location`. -/
noncomputable def generate_random_location (center_lat center_lon radius_km : ℝ) :
    List (ℝ × ℝ) → Option (ℝ × ℝ)
  | [] => none
  | (u, v) :: rest =>
    if inColomboBounds (candidatePoint center_lat center_lon radius_km u v) then
      some (candidatePoint center_lat center_lon radius_km u v)
    else
      generate_random_location center_lat center_lon radius_km rest

/-- C4: every (lat, lon) pair the Geo Sampler returns lies within the
configured box `[6.85, 6.98] × [79.82, 79.90]`; a point is returned only
after the bounds check passes. -/
theorem generate_random_location_in_bounds (center_lat center_lon radius_km : ℝ)
    (dl : List (ℝ × ℝ)) (lat lon : ℝ)
    (h : generate_random_location center_lat center_lon radius_km dl = some (lat, lon)) :
    6.85 ≤ lat ∧ lat ≤ 6.98 ∧ 79.82 ≤ lon ∧ lon ≤ 79.90 := by
  induction dl with
  | nil => simp [generate_random_location] at h
  | cons p rest ih =>
      obtain ⟨u, v⟩ := p
      rw [generate_random_location] at h
      split_ifs at h with hb
      · have hcp := Option.some_inj.mp h
        rw [hcp] at hb
        exact hb
      · exact ih h

/-- C4 witness: with draws `u = v = 0` the first candidate is the center
`(6.9271, 79.8612)`, which is accepted and in bounds. -/
theorem generate_random_location_in_bounds_witness :
    generate_random_location 6.9271 79.8612 20 [(0, 0)] = some (6.9271, 79.8612) ∧
    6.85 ≤ (6.9271 : ℝ) ∧ (6.9271 : ℝ) ≤ 6.98 ∧
    79.82 ≤ (79.8612 : ℝ) ∧ (79.8612 : ℝ) ≤ 79.90 := by
  have hcp : candidatePoint 6.9271 79.8612 20 0 0 = ((6.9271 : ℝ), (79.8612 : ℝ)) := by
    unfold candidatePoint
    simp
  have hb : inColomboBounds ((6.9271 : ℝ), (79.8612 : ℝ)) := by
    unfold inColomboBounds
    norm_num
  have hret : generate_random_location 6.9271 79.8612 20 [(0, 0)] = some (6.9271, 79.8612) := by
    rw [generate_random_location, hcp, if_pos hb]
  exact ⟨hret,
    generate_random_location_in_bounds 6.9271 79.8612 20 [(0, 0)] _ _ hret⟩

/-- The unit-step grid: `np.linspace(0, n, n + 1)` is `[0, 1, ..., n]`. -/
theorem linspace_zero_cast (n : ℕ) :
    linspace 0 (n : ℚ) (n + 1) = (List.range (n + 1)).map (Nat.cast : ℕ → ℚ) := by
  refine List.ext_getElem ?_ ?_
  · rw [linspace, List.length_map, List.length_map, List.length_range]
  intro i hi1 hi2
  simp only [linspace, List.getElem_map, List.getElem_range]
  have h2 : ((n + 1 : ℕ) : ℚ) - 1 = (n : ℚ) := by push_cast; ring
  rw [h2]
  rcases Nat.eq_zero_or_pos n with h | h
  · have hi : i = 0 := by
      simp only [linspace, List.length_map, List.length_range] at hi1
      omega
    subst h hi
    norm_num
  · have hn : (n : ℚ) ≠ 0 := Nat.cast_ne_zero.mpr h.ne'
    field_simp

/-- C3: constructing a simulation raises an invalid-parameters error iff
`N ≤ 0`, or one of `I0, R0, E0` is negative, or `E0 + I0 + R0 > N`; the
error is produced before the derived state `S0` is built, and for every
other parameter value construction succeeds (yielding
`S0 = N - I0 - R0 - E0`). -/
theorem initValidate_spec (N I0 R0 E0 : ℚ) :
    ((∃ msg, initValidate N I0 R0 E0 = Except.error msg) ↔
      (N ≤ 0 ∨ I0 < 0 ∨ R0 < 0 ∨ E0 < 0 ∨ E0 + I0 + R0 > N)) ∧
    ((initValidate N I0 R0 E0 = Except.ok (N - I0 - R0 - E0)) ↔
      ¬(N ≤ 0 ∨ I0 < 0 ∨ R0 < 0 ∨ E0 < 0 ∨ E0 + I0 + R0 > N)) := by
  unfold initValidate
  split_ifs with h1 h2
  · constructor
    · constructor
      · intro _
        tauto
      · intro _
        exact ⟨_, rfl⟩
    · constructor
      · intro h
        cases h
      · intro h
        exact absurd (by tauto) h
  · constructor
    · constructor
      · intro _
        right; right; right; right
        linarith
      · intro _
        exact ⟨_, rfl⟩
    · constructor
      · intro h
        cases h
      · intro h
        exact absurd (by right; right; right; right; linarith) h
  · constructor
    · constructor
      · rintro ⟨msg, h⟩
        cases h
      · intro h
        exfalso
        push_neg at h1
        rcases h with h | h | h | h | h
        · exact absurd h (not_le.mpr h1.1)
        · exact absurd h (not_lt.mpr h1.2.1)
        · exact absurd h (not_lt.mpr h1.2.2.1)
        · exact absurd h (not_lt.mpr h1.2.2.2)
        · exact h2 (by linarith)
    · constructor
      · intro _ h
        push_neg at h1
        rcases h with h | h | h | h | h
        · exact absurd h (not_le.mpr h1.1)
        · exact absurd h (not_lt.mpr h1.2.1)
        · exact absurd h (not_lt.mpr h1.2.2.1)
        · exact absurd h (not_lt.mpr h1.2.2.2)
        · exact h2 (by linarith)
      · intro _
        rfl

/-- C6: the SEIR derivative returns exactly
`(-β·S·I/N, β·S·I/N - σ·E, σ·E - γ·I, γ·I)`, and its four components sum
to zero. -/
theorem seir_model_spec (S E I R t N beta sigma gamma : ℚ) :
    seir_model (S, E, I, R) t N beta sigma gamma =
      (-beta * S * I / N, beta * S * I / N - sigma * E,
        sigma * E - gamma * I, gamma * I) ∧
    (seir_model (S, E, I, R) t N beta sigma gamma).1 +
      (seir_model (S, E, I, R) t N beta sigma gamma).2.1 +
      (seir_model (S, E, I, R) t N beta sigma gamma).2.2.1 +
      (seir_model (S, E, I, R) t N beta sigma gamma).2.2.2 = 0 := by
  constructor
  · rfl
  · unfold seir_model
    ring

/-- C7: for every valid parameter set the trajectory has exactly
`duration_days + 1` entries, sampled at the unit-day times
`t = 0, 1, ..., duration_days`. -/
theorem run_simulation_grid (N I0 R0 E0 : ℚ) (n : ℕ)
    (sol : ℚ → ℚ × ℚ × ℚ × ℚ)
    (_h : ∃ S0, initValidate N I0 R0 E0 = Except.ok S0) :
    (run_simulation sol n).length = n + 1 ∧
    (run_simulation sol n).map Prod.fst =
      (List.range (n + 1)).map (Nat.cast : ℕ → ℚ) := by
  unfold run_simulation odeint
  have hlen : (linspace 0 (n : ℚ) (n + 1)).length = n + 1 := by
    rw [linspace, List.length_map, List.length_range]
  constructor
  · rw [List.length_zip, List.length_map, hlen, min_self]
  · rw [List.map_fst_zip _ _ (by simp), linspace_zero_cast]

/-- C7 witness: with `N = 10000, I0 = 0, R0 = 0, E0 = 100` construction
succeeds and a 100-day run yields a trajectory of length 101. -/
theorem run_simulation_grid_witness :
    (∃ S0, initValidate 10000 0 0 100 = Except.ok S0) ∧
    (run_simulation (fun _ => (9900, 100, 0, 0)) 100).length = 101 := by
  have h : ∃ S0, initValidate 10000 0 0 100 = Except.ok S0 :=
    ⟨9900, by norm_num [initValidate]⟩
  exact ⟨h, (run_simulation_grid 10000 0 0 100 100 (fun _ => (9900, 100, 0, 0)) h).1⟩

/-! ### Weather Synthesizer (`weather model/model.py`)

`get_season` and the per-day/per-hour synthesis loop of
`generate_hourly_data`. The calendar is abstracted by `monthOfDay`, the
month of `start_date + timedelta(days=day)` (always in 1..12 for a real
date); the `random.uniform` / `random.random` draws are explicit
parameters constrained to the ranges the source draws them from. -/

/-- The season labels `get_season` can return. -/
inductive Season
  | southwest
  | northeast
  | inter_monsoon
  | normal
deriving DecidableEq

/-- `get_season` (model.py lines 106–117), as a function of `date.month`. -/
def get_season (month : ℕ) : Season :=
  if 5 ≤ month ∧ month ≤ 9 then Season.southwest
  else if month = 12 ∨ (1 ≤ month ∧ month ≤ 2) then Season.northeast
  else if month = 3 ∨ month = 4 ∨ month = 10 ∨ month = 11 then Season.inter_monsoon
  else Season.normal

/-- The rainfall / wind / humidity parameters one branch of
`generate_hourly_data` (lines 128–144) selects. -/
structure SeasonParams where
  rainfall_probability : ℚ
  rain_min : ℚ
  rain_max : ℚ
  wind_min : ℚ
  wind_max : ℚ
  hum_min : ℚ
  hum_max : ℚ
deriving DecidableEq

/-- `MONSOON_SEASONS['southwest']` (model.py lines 27–44). -/
def southwestParams : SeasonParams :=
  ⟨0.8, 20, 150, 15, 45, 75, 95⟩

/-- `MONSOON_SEASONS['northeast']` (model.py lines 45–60). -/
def northeastParams : SeasonParams :=
  ⟨0.6, 10, 100, 10, 35, 70, 90⟩

/-- `MONSOON_SEASONS['inter_monsoon']` (model.py lines 61–76). -/
def interMonsoonParams : SeasonParams :=
  ⟨0.4, 5, 50, 5, 25, 65, 85⟩

/-- The `BASE_WEATHER` rainfall probability/amount, wind-speed and
humidity parameters (model.py lines 80–103), selected by the `else`
branch of `generate_hourly_data`. -/
def baseWeatherParams : SeasonParams :=
  ⟨0.2, 0, 20, 0, 15, 60, 80⟩

/-- `BASE_WEATHER['temperature']['min']`. -/
def baseTempMin : ℚ := 24

/-- `BASE_WEATHER['temperature']['max']`. -/
def baseTempMax : ℚ := 32

/-- `BASE_WEATHER['temperature']['night_reduction']`. -/
def nightReduction : ℚ := 3

/-- The season-parameter selection of `generate_hourly_data` (lines
128–144): the first three arms are the `if`/`elif` branches reading
`MONSOON_SEASONS[season]`, the last the `else` branch reading
`BASE_WEATHER`. -/
def seasonParamsFor : Season → SeasonParams
  | Season.southwest => southwestParams
  | Season.northeast => northeastParams
  | Season.inter_monsoon => interMonsoonParams
  | Season.normal => baseWeatherParams

open Classical in
/-- Python `round(x, nd)` component: round half to even of an exact
real (the float-representation effects of the source are abstracted). -/
noncomputable def halfEvenRound (x : ℝ) : ℤ :=
  if x - ⌊x⌋ < 1/2 then ⌊x⌋
  else if 1/2 < x - ⌊x⌋ then ⌊x⌋ + 1
  else if ⌊x⌋ % 2 = 0 then ⌊x⌋ else ⌊x⌋ + 1

/-- Python `round(x, nd)`: round to `nd` decimal places, half to even. -/
noncomputable def pyRoundTo (nd : ℕ) (x : ℝ) : ℝ :=
  (halfEvenRound (x * 10 ^ nd) : ℝ) / 10 ^ nd

/-- The per-day stochastic inputs of `generate_hourly_data`: `base_temp =
random.uniform(24, 32)` and the `random.random()` draw compared against
the season's rainfall probability. -/
structure DayDraws where
  baseTemp : ℝ
  rainU : ℝ

/-- The per-hour stochastic inputs of `generate_hourly_data`:
the humidity draw and its rainy-day bonus `random.uniform(5, 10)`, the
monsoon cooling draw `random.uniform(1, 3)`, the rainfall and wind draws
from the season ranges, and the uniform location draws from
`COLOMBO_BOUNDS`. -/
structure HourDraws where
  humDraw : ℝ
  humExtra : ℝ
  coolDraw : ℝ
  rainDraw : ℝ
  windDraw : ℝ
  latDraw : ℝ
  lonDraw : ℝ

/-- Containment of the per-hour draws in the ranges the source draws
them from, given the selected season parameters. -/
def HourDrawsValid (p : SeasonParams) (h : HourDraws) : Prop :=
  (p.hum_min : ℝ) ≤ h.humDraw ∧ h.humDraw ≤ (p.hum_max : ℝ) ∧
  5 ≤ h.humExtra ∧ h.humExtra ≤ 10 ∧
  1 ≤ h.coolDraw ∧ h.coolDraw ≤ 3 ∧
  (p.rain_min : ℝ) ≤ h.rainDraw ∧ h.rainDraw ≤ (p.rain_max : ℝ) ∧
  (p.wind_min : ℝ) ≤ h.windDraw ∧ h.windDraw ≤ (p.wind_max : ℝ) ∧
  6.85 ≤ h.latDraw ∧ h.latDraw ≤ 6.98 ∧
  79.82 ≤ h.lonDraw ∧ h.lonDraw ≤ 79.90

/-- Containment of the per-day draws in their ranges. -/
def DayDrawsValid (d : DayDraws) : Prop :=
  (baseTempMin : ℝ) ≤ d.baseTemp ∧ d.baseTemp ≤ (baseTempMax : ℝ) ∧
  0 ≤ d.rainU ∧ d.rainU < 1

/-- One row of the weather `DataFrame` (the dict appended at model.py
lines 199–208); the timestamp is kept as its `(day, hour)` offsets. -/
structure WeatherRecord where
  day : ℕ
  hour : ℕ
  season : Season
  latitude : ℝ
  longitude : ℝ
  temperature : ℝ
  humidity : ℝ
  rainfall : ℝ
  wind_speed : ℝ

/-- The hourly temperature (model.py lines 152–161): diurnal sinusoid of
amplitude 3 centered at hour 6, a fixed night reduction for hours in
`[0,6] ∪ [18,23]`, and a 1–3 °C cooling on rainy monsoon days. -/
noncomputable def temperatureRaw (season : Season) (isRainy : Bool) (hour : ℕ)
    (baseTemp cool : ℝ) : ℝ :=
  baseTemp +
    (Real.sin (Real.pi * ((hour : ℝ) - 6) / 12) * 3 -
      (if hour ≤ 6 ∨ (18 ≤ hour ∧ hour ≤ 23) then (nightReduction : ℝ) else 0)) -
    (if (season = Season.southwest ∨ season = Season.northeast) ∧ isRainy then cool else 0)

/-- The hourly humidity (model.py lines 164–167): season-range draw,
`+uniform(5, 10)` on rainy days, capped by `min(·, 100)`. -/
noncomputable def humidityRaw (isRainy : Bool) (h : HourDraws) : ℝ :=
  min (h.humDraw + (if isRainy then h.humExtra else 0)) 100

open Classical in
/-- The hourly rainfall (model.py lines 170–186): zero unless the day is
rainy; on monsoon days nonzero only for hours 6–18, scaled by
`1 + sin(π·hour/12)·0.5`; otherwise nonzero only for hours 12–18. -/
noncomputable def rainfallRaw (season : Season) (isRainy : Bool) (hour : ℕ)
    (h : HourDraws) : ℝ :=
  if isRainy then
    if season = Season.southwest ∨ season = Season.northeast then
      if 6 ≤ hour ∧ hour ≤ 18 then
        h.rainDraw * (1 + Real.sin (Real.pi * (hour : ℝ) / 12) * 0.5)
      else 0
    else
      if 12 ≤ hour ∧ hour ≤ 18 then h.rainDraw else 0
  else 0

/-- The hourly wind speed (model.py lines 189–194): season-range draw
plus a sinusoidal diurnal variation of amplitude 5. -/
noncomputable def windRaw (hour : ℕ) (h : HourDraws) : ℝ :=
  h.windDraw + Real.sin (Real.pi * (hour : ℝ) / 12) * 5

/-- The row appended for one hour, fields rounded as in the source
(1 decimal for the weather values, 4 for the location). -/
noncomputable def hourlyRecord (day : ℕ) (season : Season) (isRainy : Bool)
    (hour : ℕ) (baseTemp : ℝ) (h : HourDraws) : WeatherRecord :=
  { day := day
    hour := hour
    season := season
    latitude := pyRoundTo 4 h.latDraw
    longitude := pyRoundTo 4 h.lonDraw
    temperature := pyRoundTo 1 (temperatureRaw season isRainy hour baseTemp h.coolDraw)
    humidity := pyRoundTo 1 (humidityRaw isRainy h)
    rainfall := pyRoundTo 1 (rainfallRaw season isRainy hour h)
    wind_speed := pyRoundTo 1 (windRaw hour h) }

open Classical in
/-- `is_rainy_day = random.random() < rainfall_prob` (model.py line 150),
one draw per day shared by the day's 24 hourly rows. -/
noncomputable def isRainyDay (p : SeasonParams) (d : DayDraws) : Bool :=
  if d.rainU < (p.rainfall_probability : ℝ) then true else false

/-- `generate_hourly_data` (model.py lines 119–210): for each day the
season is classified from the calendar month, and each of the day's 24
hours appends one row. -/
noncomputable def generate_hourly_data (duration_days : ℕ) (monthOfDay : ℕ → ℕ)
    (dd : ℕ → DayDraws) (hd : ℕ → ℕ → HourDraws) : List WeatherRecord :=
  (List.range duration_days).flatMap (fun day =>
    (List.range 24).map (fun hour =>
      hourlyRecord day (get_season (monthOfDay day))
        (isRainyDay (seasonParamsFor (get_season (monthOfDay day))) (dd day))
        hour (dd day).baseTemp (hd day hour)))

/-- Rounding a nonnegative value stays nonnegative. -/
theorem halfEvenRound_nonneg (x : ℝ) (hx : 0 ≤ x) : 0 ≤ halfEvenRound x := by
  have h0 : (0 : ℤ) ≤ ⌊x⌋ := Int.floor_nonneg.mpr hx
  unfold halfEvenRound
  split_ifs <;> omega

/-- Rounding cannot jump past an integer upper bound. -/
theorem halfEvenRound_le (x : ℝ) (B : ℤ) (hx : x ≤ B) : halfEvenRound x ≤ B := by
  have hf : ⌊x⌋ ≤ B := by
    have h := Int.floor_mono hx
    rwa [Int.floor_intCast] at h
  have hfx : (⌊x⌋ : ℝ) ≤ x := Int.floor_le x
  unfold halfEvenRound
  split_ifs with h1 h2 h3
  · exact hf
  · have hlt : (⌊x⌋ : ℝ) < (B : ℝ) := by linarith
    have : ⌊x⌋ < B := by exact_mod_cast hlt
    omega
  · exact hf
  · have h12 : x - ⌊x⌋ = 1/2 := le_antisymm (not_lt.mp h2) (not_lt.mp h1)
    have hlt : (⌊x⌋ : ℝ) < (B : ℝ) := by linarith
    have : ⌊x⌋ < B := by exact_mod_cast hlt
    omega

/-- `round(x, nd)` of a nonnegative value is nonnegative. -/
theorem pyRoundTo_nonneg (nd : ℕ) (x : ℝ) (hx : 0 ≤ x) : 0 ≤ pyRoundTo nd x := by
  unfold pyRoundTo
  apply div_nonneg _ (by positivity)
  have h := halfEvenRound_nonneg (x * 10 ^ nd) (mul_nonneg hx (by positivity))
  exact_mod_cast h

/-- `round(x, nd)` of a value at most 100 is at most 100. -/
theorem pyRoundTo_le_hundred (nd : ℕ) (x : ℝ) (hx : x ≤ 100) :
    pyRoundTo nd x ≤ 100 := by
  unfold pyRoundTo
  rw [div_le_iff₀ (by positivity)]
  have h : halfEvenRound (x * 10 ^ nd) ≤ (100 * 10 ^ nd : ℤ) := by
    apply halfEvenRound_le
    push_cast
    have hp : (0 : ℝ) ≤ (10 : ℝ) ^ nd := by positivity
    nlinarith
  calc (halfEvenRound (x * 10 ^ nd) : ℝ)
      ≤ ((100 * 10 ^ nd : ℤ) : ℝ) := by exact_mod_cast h
    _ = 100 * 10 ^ nd := by push_cast; ring

/-- For a calendar month (1..12) the classifier lands on one of the three
monsoon labels. -/
theorem season_cases (m : ℕ) (h1 : 1 ≤ m) (h2 : m ≤ 12) :
    get_season m = Season.southwest ∨ get_season m = Season.northeast ∨
      get_season m = Season.inter_monsoon := by
  unfold get_season
  split_ifs with c1 c2 c3
  · exact Or.inl rfl
  · exact Or.inr (Or.inl rfl)
  · exact Or.inr (Or.inr rfl)
  · omega

/-- C9: season classification is a pure function of the calendar month:
months 5–9 map to southwest, month 12 and months 1–2 to northeast,
months 3, 4, 10, 11 to inter-monsoon, and any other month to the
normal/base profile. -/
theorem get_season_by_month (m : ℕ) :
    (5 ≤ m ∧ m ≤ 9 → get_season m = Season.southwest) ∧
    ((m = 12 ∨ 1 ≤ m ∧ m ≤ 2) → get_season m = Season.northeast) ∧
    ((m = 3 ∨ m = 4 ∨ m = 10 ∨ m = 11) → get_season m = Season.inter_monsoon) ∧
    (¬(5 ≤ m ∧ m ≤ 9) ∧ ¬(m = 12 ∨ 1 ≤ m ∧ m ≤ 2) ∧
        ¬(m = 3 ∨ m = 4 ∨ m = 10 ∨ m = 11) →
      get_season m = Season.normal) := by
  refine ⟨?_, ?_, ?_, ?_⟩ <;> intro h <;> unfold get_season
  · rw [if_pos h]
  · rw [if_neg (by omega), if_pos h]
  · rw [if_neg (by omega), if_neg (by omega), if_pos h]
  · rw [if_neg h.1, if_neg h.2.1, if_neg h.2.2]

/-- C9 witness: the classifier evaluated on the spec's spot checks
(month 7 → southwest, 1 → northeast, 3 → inter-monsoon) and on an
out-of-calendar month. -/
theorem get_season_by_month_witness :
    get_season 7 = Season.southwest ∧ get_season 1 = Season.northeast ∧
    get_season 3 = Season.inter_monsoon ∧ get_season 0 = Season.normal :=
  ⟨(get_season_by_month 7).1 (by omega),
   (get_season_by_month 1).2.1 (by omega),
   (get_season_by_month 3).2.2.1 (by omega),
   (get_season_by_month 0).2.2.2 (by omega)⟩

/-- C10: for every calendar month 1..12 `get_season` never returns the
normal label, so the `else` branch of `generate_hourly_data` that selects
the `BASE_WEATHER` rainfall/wind/humidity parameters is unreachable: the
selected parameters are always one of the three monsoon profiles and
never the base profile. -/
theorem get_season_monsoon_only (m : ℕ) (h1 : 1 ≤ m) (h2 : m ≤ 12) :
    get_season m ≠ Season.normal ∧
    (seasonParamsFor (get_season m) = southwestParams ∨
      seasonParamsFor (get_season m) = northeastParams ∨
      seasonParamsFor (get_season m) = interMonsoonParams) ∧
    seasonParamsFor (get_season m) ≠ baseWeatherParams := by
  rcases season_cases m h1 h2 with h | h | h <;> rw [h]
  · refine ⟨by decide, Or.inl rfl, ?_⟩
    show southwestParams ≠ baseWeatherParams
    norm_num [southwestParams, baseWeatherParams, SeasonParams.mk.injEq]
  · refine ⟨by decide, Or.inr (Or.inl rfl), ?_⟩
    show northeastParams ≠ baseWeatherParams
    norm_num [northeastParams, baseWeatherParams, SeasonParams.mk.injEq]
  · refine ⟨by decide, Or.inr (Or.inr rfl), ?_⟩
    show interMonsoonParams ≠ baseWeatherParams
    norm_num [interMonsoonParams, baseWeatherParams, SeasonParams.mk.injEq]

/-- C10 witness: the unreachability theorem evaluated at month 7. -/
theorem get_season_monsoon_only_witness :
    get_season 7 ≠ Season.normal ∧
    (seasonParamsFor (get_season 7) = southwestParams ∨
      seasonParamsFor (get_season 7) = northeastParams ∨
      seasonParamsFor (get_season 7) = interMonsoonParams) ∧
    seasonParamsFor (get_season 7) ≠ baseWeatherParams :=
  get_season_monsoon_only 7 (by omega) (by omega)

/-- Bounds of one hourly row: for a non-normal season and draws within
their source ranges, the stored humidity is in [0, 100] and the stored
rainfall and wind speed are nonnegative. -/
theorem hourlyRecord_bounds (day : ℕ) (s : Season) (isRainy : Bool) (hour : ℕ)
    (baseTemp : ℝ) (h : HourDraws) (hs : s ≠ Season.normal)
    (hh : HourDrawsValid (seasonParamsFor s) h) :
    0 ≤ (hourlyRecord day s isRainy hour baseTemp h).humidity ∧
    (hourlyRecord day s isRainy hour baseTemp h).humidity ≤ 100 ∧
    0 ≤ (hourlyRecord day s isRainy hour baseTemp h).rainfall ∧
    0 ≤ (hourlyRecord day s isRainy hour baseTemp h).wind_speed := by
  obtain ⟨hh1, hh2, hh3, hh4, hh5, hh6, hh7, hh8, hh9, hh10, -⟩ := hh
  have hsin1 : -1 ≤ Real.sin (Real.pi * (hour : ℝ) / 12) := Real.neg_one_le_sin _
  have hhum0 : (0 : ℝ) ≤ ((seasonParamsFor s).hum_min : ℝ) := by
    cases s <;>
      norm_num [seasonParamsFor, southwestParams, northeastParams,
        interMonsoonParams, baseWeatherParams]
  have hrain0 : (0 : ℝ) ≤ ((seasonParamsFor s).rain_min : ℝ) := by
    cases s <;>
      norm_num [seasonParamsFor, southwestParams, northeastParams,
        interMonsoonParams, baseWeatherParams]
  have hwind5 : (5 : ℝ) ≤ ((seasonParamsFor s).wind_min : ℝ) := by
    cases s
    · norm_num [seasonParamsFor, southwestParams]
    · norm_num [seasonParamsFor, northeastParams]
    · norm_num [seasonParamsFor, interMonsoonParams]
    · exact absurd rfl hs
  refine ⟨?_, ?_, ?_, ?_⟩
  · show 0 ≤ pyRoundTo 1 (humidityRaw isRainy h)
    apply pyRoundTo_nonneg
    unfold humidityRaw
    apply le_min
    · cases isRainy <;> simp <;> linarith
    · norm_num
  · show pyRoundTo 1 (humidityRaw isRainy h) ≤ 100
    exact pyRoundTo_le_hundred 1 _ (min_le_right _ _)
  · show 0 ≤ pyRoundTo 1 (rainfallRaw s isRainy hour h)
    apply pyRoundTo_nonneg
    unfold rainfallRaw
    have hrd : (0 : ℝ) ≤ h.rainDraw := le_trans hrain0 hh7
    split_ifs
    · exact mul_nonneg hrd (by nlinarith [hsin1])
    · norm_num
    · exact hrd
    · norm_num
    · norm_num
  · show 0 ≤ pyRoundTo 1 (windRaw hour h)
    apply pyRoundTo_nonneg
    unfold windRaw
    have hwd : (5 : ℝ) ≤ h.windDraw := le_trans hwind5 hh9
    nlinarith [hsin1]

/-- C5: every row `generate_hourly_data` produces — for any start date
(any month map into 1..12) and duration, with every pseudo-random draw in
the range its `random.uniform` call draws from — has humidity in
[0, 100] (capped at 100), rainfall ≥ 0 and wind speed ≥ 0. -/
theorem weather_bounds (duration_days : ℕ) (monthOfDay : ℕ → ℕ)
    (dd : ℕ → DayDraws) (hd : ℕ → ℕ → HourDraws)
    (hm : ∀ day, 1 ≤ monthOfDay day ∧ monthOfDay day ≤ 12)
    (hdd : ∀ day, DayDrawsValid (dd day))
    (hhd : ∀ day hour,
      HourDrawsValid (seasonParamsFor (get_season (monthOfDay day))) (hd day hour))
    (r : WeatherRecord) (hr : r ∈ generate_hourly_data duration_days monthOfDay dd hd) :
    0 ≤ r.humidity ∧ r.humidity ≤ 100 ∧ 0 ≤ r.rainfall ∧ 0 ≤ r.wind_speed := by
  rw [generate_hourly_data, List.mem_flatMap] at hr
  obtain ⟨day, hday, hr⟩ := hr
  rw [List.mem_map] at hr
  obtain ⟨hour, hhour, rfl⟩ := hr
  have hs : get_season (monthOfDay day) ≠ Season.normal := by
    rcases season_cases (monthOfDay day) (hm day).1 (hm day).2 with h | h | h <;>
      rw [h] <;> decide
  exact hourlyRecord_bounds day _ _ hour _ (hd day hour) hs (hhd day hour)

/-- A concrete per-day draw: `base_temp = 28`, rainy-day uniform draw
`0.5`. -/
noncomputable def witnessDayDraws : DayDraws := ⟨28, 1/2⟩

/-- A concrete per-hour draw vector inside every southwest-monsoon
range. -/
noncomputable def witnessHourDraws : HourDraws := ⟨80, 6, 2, 30, 20, 6.9, 79.85⟩

/-- The first row of a 1-day July run on the concrete draws. -/
noncomputable def witnessRecord : WeatherRecord :=
  hourlyRecord 0 (get_season 7)
    (isRainyDay (seasonParamsFor (get_season 7)) witnessDayDraws)
    0 witnessDayDraws.baseTemp witnessHourDraws

/-- C5 witness: the bounds theorem applied to the 1-day July run on the
concrete draws, at its first row. -/
theorem weather_bounds_witness :
    0 ≤ witnessRecord.humidity ∧ witnessRecord.humidity ≤ 100 ∧
    0 ≤ witnessRecord.rainfall ∧ 0 ≤ witnessRecord.wind_speed := by
  apply weather_bounds 1 (fun _ => 7) (fun _ => witnessDayDraws)
    (fun _ _ => witnessHourDraws)
  · intro day
    exact ⟨by omega, by omega⟩
  · intro day
    unfold DayDrawsValid witnessDayDraws baseTempMin baseTempMax
    norm_num
  · intro day hour
    unfold HourDrawsValid witnessHourDraws
    norm_num [get_season, seasonParamsFor, southwestParams]
  · rw [generate_hourly_data, List.mem_flatMap]
    refine ⟨0, by simp, ?_⟩
    rw [List.mem_map]
    exact ⟨0, by simp, rfl⟩

end Outbreak
